import Mathlib

/-!
Verification of the generation orchestration engine of the
Christmas-dress (Festive Style Mixer) application.

The embedding follows the source files:
  src/services/geminiService.ts  (generateComposite, generateLiveVideo)
  src/App.tsx                    (App state, handleGenerate, handleAnimate,
                                  the generate button disabled predicate)
Remote endpoints are modelled as explicit inputs (an Except value for the
single composite round trip, a stream of poll responses for the video job),
and the asynchronous handlers as big-step functions from the component
state and the service outcome to the next state, paired with a Bool
recording whether a remote call was issued.
-/

namespace FestiveMixer

/-- AppStatus from src/unnamed/part_002 (types): IDLE, GENERATING, SUCCESS, ERROR. -/
inductive AppStatus where
  | IDLE
  | GENERATING
  | SUCCESS
  | ERROR
deriving DecidableEq, Repr

/-- UploadedImage from the types module: id, base64 data, mime type, preview URL. -/
structure UploadedImage where
  id : String
  data : String
  mimeType : String
  previewUrl : String
deriving DecidableEq, Repr

/-- The React state of the App component (src/App.tsx lines 8-17). -/
structure AppState where
  hasKey : Bool
  clothesImg : Option UploadedImage
  personImg : Option UploadedImage
  scenePrompt : String
  status : AppStatus
  resultUrl : Option String
  videoUrl : Option String
  isAnimating : Bool
  errorMsg : Option String
deriving DecidableEq, Repr

/-- JavaScript String.prototype.trim: strip leading and trailing
whitespace. -/
def jsTrim (s : String) : String :=
  String.mk (((s.toList.dropWhile Char.isWhitespace).reverse.dropWhile
    Char.isWhitespace).reverse)

/-- Does sub occur as a contiguous run somewhere in l. -/
def listContainsRun (l sub : List Char) : Bool :=
  match l with
  | [] => sub.isEmpty
  | _ :: rest => sub.isPrefixOf l || listContainsRun rest sub

/-- JavaScript String.prototype.includes: does s contain sub as a substring. -/
def jsIncludes (s sub : String) : Bool :=
  listContainsRun s.toList sub.toList

/-- The entity-not-found signature tested in both catch blocks
(geminiService.ts lines 136 and 192). -/
def entityNotFoundSig : String := "Requested entity was not found"

/-- The reclassification performed by both catch blocks: an error whose
(truthy) message contains the signature is rethrown as API_KEY_INVALID,
any other error is rethrown unchanged (geminiService.ts 133-140, 190-196). -/
def reclassifyAuth (m : String) : String :=
  if m ≠ "" ∧ jsIncludes m entityNotFoundSig = true then "API_KEY_INVALID" else m

/-- One part of the composite request payload (geminiService.ts 90-106). -/
inductive ReqPart where
  | text (s : String)
  | inlineData (mimeType data : String)
deriving DecidableEq, Repr

/-- The parts array sent by generateComposite (geminiService.ts 90-106):
text prompt, then the clothes image, then the person image. -/
def buildCompositeParts (prompt : String) (clothesImage personImage : UploadedImage) :
    List ReqPart :=
  [ReqPart.text prompt,
   ReqPart.inlineData clothesImage.mimeType clothesImage.data,
   ReqPart.inlineData personImage.mimeType personImage.data]

/-- One part of the remote response: an optional inline image
(mimeType, data) and an optional text field. -/
structure RespPart where
  inlineData : Option (String × String) := none
  text : Option String := none
deriving DecidableEq, Repr

/-- The for-loop of geminiService.ts 118-122: the first part carrying
inlineData (a present object is truthy in JavaScript). -/
def firstInlineData : List RespPart → Option (String × String)
  | [] => none
  | p :: rest =>
    match p.inlineData with
    | some d => some d
    | none => firstInlineData rest

/-- The find of geminiService.ts 125: the first part whose text field is
truthy, that is present and non-empty. -/
def findRefusalText : List RespPart → Option String
  | [] => none
  | p :: rest =>
    match p.text with
    | some u => if u = "" then findRefusalText rest else some u
    | none => findRefusalText rest

/-- The data-URL built on success (geminiService.ts 120): the mime type is
hard-coded to image/png. -/
def pngDataUrl (d : String) : String := "data:image/png;base64," ++ d

/-- The body of the try block of generateComposite given the response parts
(geminiService.ts 117-131): first inline image wins; otherwise a truthy
text part is thrown as the refusal; otherwise the empty-response error. -/
def generateCompositeCore (parts : List RespPart) : Except String String :=
  match firstInlineData parts with
  | some d => Except.ok (pngDataUrl d.2)
  | none =>
    match findRefusalText parts with
    | some t => Except.error t
    | none => Except.error "No image data found in response"

/-- generateComposite (geminiService.ts 86-141): the remote round trip
either fails with a raw message or yields response parts; every error
leaving the try block passes through the catch reclassification. -/
def generateComposite (remote : Except String (List RespPart)) : Except String String :=
  match (match remote with
         | Except.ok parts => generateCompositeCore parts
         | Except.error m => Except.error m) with
  | Except.ok v => Except.ok v
  | Except.error m => Except.error (reclassifyAuth m)

/-- A video operation handle as observed by the poller: the done flag and,
once done, the optional retrieval URI (geminiService.ts 177, 182). -/
structure Op where
  done : Bool
  uri : Option String
deriving DecidableEq, Repr

/-- The remote video environment: the submission outcome, the outcome of
the k-th getVideosOperation status query, and the retrieval fetch outcome. -/
structure VideoEnv where
  submit : Except String Op
  poll : Nat → Except String Op
  fetchResult : Except String String

/-- The while-loop of geminiService.ts 177-180, instrumented with fuel:
k counts the getVideosOperation status queries made so far; the loop
exits only when the current operation reports done.  none means the loop
is still running after consuming all fuel (the source has no bound). -/
def pollLoop (poll : Nat → Except String Op) (op : Op) (k : Nat) :
    Nat → Option (Except String (Nat × Op))
  | 0 => if op.done then some (Except.ok (k, op)) else none
  | fuel + 1 =>
    if op.done then some (Except.ok (k, op))
    else
      match poll k with
      | Except.error e => some (Except.error e)
      | Except.ok op2 => pollLoop poll op2 (k + 1) fuel

/-- generateLiveVideo (geminiService.ts 161-196) run against an
environment: on completion it returns (status queries, retrieval fetches,
object URL); every error passes through the catch reclassification; none
means the poll loop is still running after fuel steps. -/
def generateLiveVideoRun (env : VideoEnv) (fuel : Nat) :
    Option (Except String (Nat × Nat × String)) :=
  match env.submit with
  | Except.error e => some (Except.error (reclassifyAuth e))
  | Except.ok op0 =>
    match pollLoop env.poll op0 0 fuel with
    | none => none
    | some (Except.error e) => some (Except.error (reclassifyAuth e))
    | some (Except.ok (n, opF)) =>
      match opF.uri with
      | none => some (Except.error (reclassifyAuth "No video URI found"))
      | some _ =>
        match env.fetchResult with
        | Except.error e => some (Except.error (reclassifyAuth e))
        | Except.ok url => some (Except.ok (n, 1, url))

/-- The guard of handleGenerate (App.tsx 39): proceed only when both images
are present and the trimmed scene prompt is non-empty. -/
def generateGuardPasses (s : AppState) : Bool :=
  s.clothesImg.isSome && s.personImg.isSome && !(jsTrim s.scenePrompt == "")

/-- The synchronous prefix of handleGenerate (App.tsx 41-44): status
becomes GENERATING and the error message and both prior results are
cleared. -/
def handleGenerateStart (s : AppState) : AppState :=
  { s with status := AppStatus.GENERATING, errorMsg := none,
           resultUrl := none, videoUrl := none }

/-- handleGenerate (App.tsx 38-60) as a big-step function of the state and
the generateComposite outcome; the Bool records whether the remote call
was issued. -/
def handleGenerate (s : AppState) (svc : Except String String) : AppState × Bool :=
  if generateGuardPasses s then
    let s1 := handleGenerateStart s
    match svc with
    | Except.ok url =>
      ({ s1 with resultUrl := some url, status := AppStatus.SUCCESS }, true)
    | Except.error m =>
      if m = "API_KEY_INVALID" then
        ({ s1 with hasKey := false,
                   errorMsg := some "API Session expired or invalid. Please reconnect.",
                   status := AppStatus.ERROR }, true)
      else
        ({ s1 with errorMsg := some "Something went wrong during generation. Please try again.",
                   status := AppStatus.ERROR }, true)
  else (s, false)

/-- The guard of handleAnimate (App.tsx 63): proceed only when a composite
result exists and the scene prompt is non-empty (not trimmed here). -/
def animateGuardPasses (s : AppState) : Bool :=
  s.resultUrl.isSome && !(s.scenePrompt == "")

/-- The synchronous prefix of handleAnimate (App.tsx 65-66): the animating
flag is raised and the error message cleared; status is not touched. -/
def handleAnimateMid (s : AppState) : AppState :=
  { s with isAnimating := true, errorMsg := none }

/-- handleAnimate (App.tsx 62-82) as a big-step function of the state and
the generateLiveVideo outcome; the finally block lowers the animating flag
on every path; status is never written. -/
def handleAnimate (s : AppState) (svc : Except String String) : AppState × Bool :=
  if animateGuardPasses s then
    let s1 := handleAnimateMid s
    let s2 :=
      match svc with
      | Except.ok video => { s1 with videoUrl := some video }
      | Except.error m =>
        if m = "API_KEY_INVALID" then
          { s1 with hasKey := false,
                    errorMsg := some "API Session expired during video generation. Please reconnect." }
        else
          { s1 with errorMsg := some "Failed to generate video. Please try again." }
    ({ s2 with isAnimating := false }, true)
  else (s, false)

/-- The disabled attribute of the Generate button (App.tsx 176): the click
path is unavailable while an image is missing, the prompt is empty, a
generation is in flight, or an animation is in flight. -/
def generateButtonDisabled (s : AppState) : Bool :=
  s.clothesImg.isNone || s.personImg.isNone || s.scenePrompt == "" ||
    decide (s.status = AppStatus.GENERATING) || s.isAnimating

/-- A user click on the Generate button: a disabled button fires no
handler, otherwise handleGenerate runs (App.tsx 174-183). -/
def clickGenerate (s : AppState) (svc : Except String String) : AppState × Bool :=
  if generateButtonDisabled s then (s, false) else handleGenerate s svc

/-! ### Concrete sample values used by witnesses and counterexamples -/

/-- A sample uploaded image. -/
def sampleGarment : UploadedImage :=
  { id := "g1", data := "R0FSTUVOVA", mimeType := "image/jpeg",
    previewUrl := "data:image/jpeg;base64,R0FSTUVOVA" }

/-- A second sample uploaded image. -/
def samplePerson : UploadedImage :=
  { id := "p1", data := "UEVSU09O", mimeType := "image/png",
    previewUrl := "data:image/png;base64,UEVSU09O" }

/-- A state in which a successful composite exists and both the generate
and the animate guards pass. -/
def readyState : AppState :=
  { hasKey := true, clothesImg := some sampleGarment, personImg := some samplePerson,
    scenePrompt := "a snowy street at dusk", status := AppStatus.SUCCESS,
    resultUrl := some "data:image/png;base64,Q09NUE9TSVRF", videoUrl := none,
    isAnimating := false, errorMsg := none }

/-- A state in the middle of a generation. -/
def generatingState : AppState :=
  { readyState with status := AppStatus.GENERATING, resultUrl := none }

/-- A state with no composite result yet. -/
def idleState : AppState :=
  { readyState with status := AppStatus.IDLE, resultUrl := none }

/-! ### Helper lemmas -/

/-- A string containing the entity-not-found signature is non-empty. -/
theorem ne_empty_of_includes_sig {msg : String}
    (h : jsIncludes msg entityNotFoundSig = true) : msg ≠ "" := by
  intro he
  subst he
  exact absurd h (by decide)

/-- The reclassification maps any message containing the signature to
API_KEY_INVALID. -/
theorem reclassifyAuth_eq_of_sig {msg : String}
    (h : jsIncludes msg entityNotFoundSig = true) :
    reclassifyAuth msg = "API_KEY_INVALID" := by
  unfold reclassifyAuth
  exact if_pos ⟨ne_empty_of_includes_sig h, h⟩

/-- A refusal text found by the truthiness test is never empty. -/
theorem findRefusalText_ne_empty :
    ∀ (parts : List RespPart) (t : String), findRefusalText parts = some t → t ≠ "" := by
  intro parts
  induction parts with
  | nil => intro t h; exact absurd h (by simp [findRefusalText])
  | cons p rest ih =>
    intro t h
    cases hp : p.text with
    | none =>
      simp only [findRefusalText, hp] at h
      exact ih t h
    | some u =>
      simp only [findRefusalText, hp] at h
      by_cases hu : u = ""
      · rw [if_pos hu] at h; exact ih t h
      · rw [if_neg hu] at h
        cases h
        exact hu

/-- Scanning past a run of parts without inline data reaches the first
part that carries inline data. -/
theorem firstInlineData_append {pre : List RespPart} (hpre : firstInlineData pre = none)
    (p : RespPart) (post : List RespPart) {m d : String} (hp : p.inlineData = some (m, d)) :
    firstInlineData (pre ++ p :: post) = some (m, d) := by
  induction pre with
  | nil => simp [firstInlineData, hp]
  | cons q rest ih =>
    cases hq : q.inlineData with
    | some d2 =>
      simp only [firstInlineData, hq] at hpre
      exact absurd hpre (by simp)
    | none =>
      simp only [firstInlineData, hq] at hpre ⊢
      exact ih hpre

/-! ### Claim theorems -/

/-- C4: every composition request payload is ordered text prompt first,
then the garment (clothes) image, then the subject (person) image; the
garment part always precedes the subject part. -/
theorem compositeParts_ordered (prompt : String) (c p : UploadedImage) :
    (buildCompositeParts prompt c p).length = 3
    ∧ (buildCompositeParts prompt c p)[0]? = some (ReqPart.text prompt)
    ∧ (buildCompositeParts prompt c p)[1]? = some (ReqPart.inlineData c.mimeType c.data)
    ∧ (buildCompositeParts prompt c p)[2]? = some (ReqPart.inlineData p.mimeType p.data) :=
  ⟨rfl, rfl, rfl, rfl⟩

/-- C8: a response with at least one inline-image part makes
generateComposite return that first image; any text parts before or after
it are ignored and neither error branch is reached. -/
theorem composite_returns_first_image (pre post : List RespPart) (p : RespPart) (m d : String)
    (hpre : firstInlineData pre = none) (hp : p.inlineData = some (m, d)) :
    generateComposite (Except.ok (pre ++ p :: post)) = Except.ok (pngDataUrl d) := by
  simp only [generateComposite, generateCompositeCore,
    firstInlineData_append hpre p post hp]

/-- C8 witness: a leading text part is ignored and the first inline image
is returned. -/
theorem composite_returns_first_image_witness :
    firstInlineData [{ inlineData := none, text := some "Here is the composite." }] = none
    ∧ generateComposite (Except.ok
        [{ inlineData := none, text := some "Here is the composite." },
         { inlineData := some ("image/webp", "SU1H"), text := none }])
      = Except.ok (pngDataUrl "SU1H") :=
  ⟨rfl, composite_returns_first_image
      [{ inlineData := none, text := some "Here is the composite." }] []
      { inlineData := some ("image/webp", "SU1H"), text := none }
      "image/webp" "SU1H" rfl rfl⟩

/-- C9: whatever mime type the first inline part reports, the returned
data URL is exactly the hard-coded image/png scheme followed by the data. -/
theorem composite_mime_hardcoded_png (parts : List RespPart) (m d : String)
    (h : firstInlineData parts = some (m, d)) :
    generateComposite (Except.ok parts) = Except.ok ("data:image/png;base64," ++ d) := by
  simp only [generateComposite, generateCompositeCore, h, pngDataUrl]

/-- C9 witness: an inline part reported as image/jpeg still yields an
image/png data URL. -/
theorem composite_mime_hardcoded_png_witness :
    firstInlineData [{ inlineData := some ("image/jpeg", "QUJD"), text := none }]
      = some ("image/jpeg", "QUJD")
    ∧ generateComposite (Except.ok [{ inlineData := some ("image/jpeg", "QUJD"), text := none }])
      = Except.ok ("data:image/png;base64," ++ "QUJD") :=
  ⟨rfl, composite_mime_hardcoded_png
      [{ inlineData := some ("image/jpeg", "QUJD"), text := none }] "image/jpeg" "QUJD" rfl⟩

/-- C5 counterexample: a response whose only part is a text part is not
always surfaced as a refusal carrying exactly that text.  If the text
contains the entity-not-found signature the catch block rewrites the error
to API_KEY_INVALID, and a text part whose text is the empty string is not
truthy, so it falls through to the empty-response error. -/
theorem text_only_not_always_refusal :
    generateComposite (Except.ok
        [{ inlineData := none, text := some "Requested entity was not found" }])
      = Except.error "API_KEY_INVALID"
    ∧ ("API_KEY_INVALID" : String) ≠ "Requested entity was not found"
    ∧ generateComposite (Except.ok [{ inlineData := none, text := some "" }])
      = Except.error "No image data found in response"
    ∧ ("No image data found in response" : String) ≠ "" :=
  ⟨rfl, by decide, rfl, by decide⟩

/-- C5 amended: a response with no inline-image part and a text part whose
text is non-empty and free of the entity-not-found signature yields the
refusal error carrying exactly that text; with no inline-image part and no
non-empty text part it yields the empty-response error. -/
theorem text_only_refusal_amended (parts : List RespPart) (t : String) :
    (firstInlineData parts = none → findRefusalText parts = some t →
      jsIncludes t entityNotFoundSig = false →
      generateComposite (Except.ok parts) = Except.error t)
    ∧ (firstInlineData parts = none → findRefusalText parts = none →
      generateComposite (Except.ok parts) = Except.error "No image data found in response") := by
  constructor
  · intro himg htext hsig
    simp only [generateComposite, generateCompositeCore, himg, htext]
    have hne : t ≠ "" := findRefusalText_ne_empty parts t htext
    simp [reclassifyAuth, hne, hsig]
  · intro himg htext
    simp only [generateComposite, generateCompositeCore, himg, htext]
    have : reclassifyAuth "No image data found in response"
        = "No image data found in response" := by decide
    rw [this]

/-- C5 witness: a plain refusal text is surfaced verbatim, and a response
with no parts at all yields the empty-response error. -/
theorem text_only_refusal_amended_witness :
    (firstInlineData [{ inlineData := none, text := some "I cannot create that image." }] = none
      ∧ findRefusalText [{ inlineData := none, text := some "I cannot create that image." }]
          = some "I cannot create that image."
      ∧ jsIncludes "I cannot create that image." entityNotFoundSig = false
      ∧ generateComposite (Except.ok
            [{ inlineData := none, text := some "I cannot create that image." }])
          = Except.error "I cannot create that image.")
    ∧ generateComposite (Except.ok ([] : List RespPart))
        = Except.error "No image data found in response" :=
  ⟨⟨rfl, rfl, by decide,
      (text_only_refusal_amended
          [{ inlineData := none, text := some "I cannot create that image." }]
          "I cannot create that image.").1 rfl rfl (by decide)⟩,
    (text_only_refusal_amended ([] : List RespPart) "").2 rfl rfl⟩

/-- C2: a remote failure whose message contains the entity-not-found
signature is reported as API_KEY_INVALID by both services, and feeding
that outcome to the corresponding App handler resets the session
credential flag hasKey to false and records the reconnect notice. -/
theorem entityNotFound_reports_auth (msg : String) (s : AppState) (env : VideoEnv) (fuel : Nat)
    (hsig : jsIncludes msg entityNotFoundSig = true)
    (hsub : env.submit = Except.error msg)
    (hg : generateGuardPasses s = true)
    (ha : animateGuardPasses s = true) :
    generateComposite (Except.error msg) = Except.error "API_KEY_INVALID"
    ∧ generateLiveVideoRun env fuel = some (Except.error "API_KEY_INVALID")
    ∧ (handleGenerate s (generateComposite (Except.error msg))).1.hasKey = false
    ∧ (handleGenerate s (generateComposite (Except.error msg))).1.errorMsg
        = some "API Session expired or invalid. Please reconnect."
    ∧ (handleAnimate s (Except.error "API_KEY_INVALID")).1.hasKey = false
    ∧ (handleAnimate s (Except.error "API_KEY_INVALID")).1.errorMsg
        = some "API Session expired during video generation. Please reconnect." := by
  have hre : reclassifyAuth msg = "API_KEY_INVALID" := reclassifyAuth_eq_of_sig hsig
  have hcomp : generateComposite (Except.error msg) = Except.error "API_KEY_INVALID" := by
    simp only [generateComposite, hre]
  refine ⟨hcomp, ?_, ?_, ?_, ?_, ?_⟩
  · simp only [generateLiveVideoRun, hsub, hre]
  · rw [hcomp]; simp [handleGenerate, hg]
  · rw [hcomp]; simp [handleGenerate, hg]
  · simp [handleAnimate, ha]
  · simp [handleAnimate, ha]

/-- C2 witness: the concrete entity-not-found message, in the ready state,
resets hasKey through both the composite and the animation path. -/
theorem entityNotFound_reports_auth_witness :
    (jsIncludes "Requested entity was not found" entityNotFoundSig = true
      ∧ generateGuardPasses readyState = true
      ∧ animateGuardPasses readyState = true)
    ∧ (generateComposite (Except.error "Requested entity was not found")
          = Except.error "API_KEY_INVALID"
        ∧ generateLiveVideoRun
            { submit := Except.error "Requested entity was not found",
              poll := fun _ => Except.ok { done := false, uri := none },
              fetchResult := Except.ok "blob:v" } 0
          = some (Except.error "API_KEY_INVALID")
        ∧ (handleGenerate readyState
            (generateComposite (Except.error "Requested entity was not found"))).1.hasKey = false
        ∧ (handleGenerate readyState
            (generateComposite (Except.error "Requested entity was not found"))).1.errorMsg
            = some "API Session expired or invalid. Please reconnect."
        ∧ (handleAnimate readyState (Except.error "API_KEY_INVALID")).1.hasKey = false
        ∧ (handleAnimate readyState (Except.error "API_KEY_INVALID")).1.errorMsg
            = some "API Session expired during video generation. Please reconnect.") :=
  ⟨⟨by decide, by decide, by decide⟩,
    entityNotFound_reports_auth "Requested entity was not found" readyState
      { submit := Except.error "Requested entity was not found",
        poll := fun _ => Except.ok { done := false, uri := none },
        fetchResult := Except.ok "blob:v" } 0
      (by decide) rfl (by decide) (by decide)⟩

/-- C3: a generation request issued while status is GENERATING is a no-op:
the disabled attribute of the Generate button makes the click unreachable,
so the state is returned unchanged and no remote call is issued. -/
theorem generating_click_is_noop (s : AppState) (svc : Except String String)
    (h : s.status = AppStatus.GENERATING) :
    clickGenerate s svc = (s, false) := by
  have hd : generateButtonDisabled s = true := by
    simp [generateButtonDisabled, h]
  simp [clickGenerate, hd]

/-- C3 witness: clicking Generate in the concrete generating state changes
nothing and issues no call. -/
theorem generating_click_is_noop_witness :
    generatingState.status = AppStatus.GENERATING
    ∧ clickGenerate generatingState (Except.ok "data:image/png;base64,WA")
        = (generatingState, false) :=
  ⟨rfl, generating_click_is_noop generatingState (Except.ok "data:image/png;base64,WA") rfl⟩

/-- C6: handleGenerate issues the composition call if and only if both
image slots are populated and the scene prompt is non-empty after
trimming; when it does, the start transition sets status to GENERATING and
clears the prior result, video and error; otherwise the state is returned
unchanged with no call. -/
theorem generate_starts_iff_ready (s : AppState) (svc : Except String String) :
    ((handleGenerate s svc).2 = true ↔
      (s.clothesImg.isSome = true ∧ s.personImg.isSome = true ∧ jsTrim s.scenePrompt ≠ ""))
    ∧ (¬(s.clothesImg.isSome = true ∧ s.personImg.isSome = true ∧ jsTrim s.scenePrompt ≠ "") →
        handleGenerate s svc = (s, false))
    ∧ (handleGenerateStart s).status = AppStatus.GENERATING
    ∧ (handleGenerateStart s).resultUrl = none
    ∧ (handleGenerateStart s).videoUrl = none
    ∧ (handleGenerateStart s).errorMsg = none := by
  have hiff : generateGuardPasses s = true ↔
      (s.clothesImg.isSome = true ∧ s.personImg.isSome = true ∧ jsTrim s.scenePrompt ≠ "") := by
    simp [generateGuardPasses, and_assoc]
  refine ⟨?_, ?_, rfl, rfl, rfl, rfl⟩
  · constructor
    · intro h2
      apply hiff.mp
      by_contra hb
      have hfalse : generateGuardPasses s = false := by
        cases hg : generateGuardPasses s with
        | true => exact absurd hg hb
        | false => rfl
      simp [handleGenerate, hfalse] at h2
    · intro hr
      have hg := hiff.mpr hr
      simp only [handleGenerate, hg, if_true]
      cases svc with
      | ok url => rfl
      | error m =>
        by_cases hm : m = "API_KEY_INVALID"
        · simp [hm]
        · simp [hm]
  · intro hr
    have hfalse : generateGuardPasses s = false := by
      cases hg : generateGuardPasses s with
      | true => exact absurd (hiff.mp hg) hr
      | false => rfl
    simp [handleGenerate, hfalse]

/-- C6 witness: in the idle ready state the call is issued, and blanking
the prompt to whitespace makes handleGenerate a strict no-op. -/
theorem generate_starts_iff_ready_witness :
    (handleGenerate idleState (Except.ok "data:image/png;base64,WA")).2 = true
    ∧ handleGenerate { idleState with scenePrompt := "   " }
        (Except.ok "data:image/png;base64,WA")
        = ({ idleState with scenePrompt := "   " }, false) :=
  ⟨(generate_starts_iff_ready idleState (Except.ok "data:image/png;base64,WA")).1.mpr
      ⟨by decide, by decide, by decide⟩,
    (generate_starts_iff_ready { idleState with scenePrompt := "   " }
        (Except.ok "data:image/png;base64,WA")).2.1
      (by intro h; exact absurd h.2.2 (by decide))⟩

/-- C7: an animation started from a SUCCESS state raises the animating
flag without touching the status, lowers it again on every outcome, keeps
the top-level status at SUCCESS, and on failure only records an error
notice instead of moving the status to ERROR. -/
theorem animate_preserves_success (s : AppState) (svc : Except String String)
    (hs : s.status = AppStatus.SUCCESS)
    (hg : animateGuardPasses s = true) :
    (handleAnimateMid s).status = AppStatus.SUCCESS
    ∧ (handleAnimate s svc).1.isAnimating = false
    ∧ (handleAnimate s svc).1.status = AppStatus.SUCCESS
    ∧ (∀ m : String, svc = Except.error m →
        (handleAnimate s svc).1.errorMsg ≠ none) := by
  refine ⟨by simp [handleAnimateMid, hs], ?_, ?_, ?_⟩
  · cases svc with
    | ok v => simp [handleAnimate, hg]
    | error m =>
      by_cases hm : m = "API_KEY_INVALID"
      · simp [handleAnimate, hg, hm]
      · simp [handleAnimate, hg, hm]
  · cases svc with
    | ok v => simp [handleAnimate, hg, handleAnimateMid, hs]
    | error m =>
      by_cases hm : m = "API_KEY_INVALID"
      · simp [handleAnimate, hg, hm, handleAnimateMid, hs]
      · simp [handleAnimate, hg, hm, handleAnimateMid, hs]
  · intro m hm
    subst hm
    by_cases hm2 : m = "API_KEY_INVALID"
    · simp [handleAnimate, hg, hm2]
    · simp [handleAnimate, hg, hm2]

/-- C7 witness: a failed animation in the ready SUCCESS state ends with
the animating flag down, status still SUCCESS and an error notice set. -/
theorem animate_preserves_success_witness :
    (readyState.status = AppStatus.SUCCESS ∧ animateGuardPasses readyState = true)
    ∧ ((handleAnimateMid readyState).status = AppStatus.SUCCESS
        ∧ (handleAnimate readyState (Except.error "service unavailable")).1.isAnimating = false
        ∧ (handleAnimate readyState (Except.error "service unavailable")).1.status
            = AppStatus.SUCCESS
        ∧ (∀ m : String,
            (Except.error "service unavailable" : Except String String) = Except.error m →
            (handleAnimate readyState
              (Except.error "service unavailable")).1.errorMsg ≠ none)) :=
  ⟨⟨rfl, by decide⟩,
    animate_preserves_success readyState (Except.error "service unavailable") rfl (by decide)⟩

/-- C10: with no composite result or an empty (untrimmed) scene prompt,
handleAnimate returns at its guard: the state is unchanged and the video
service is not invoked, so no animation can start before a successful
composite exists. -/
theorem animate_noop_without_result (s : AppState) (svc : Except String String)
    (h : s.resultUrl = none ∨ s.scenePrompt = "") :
    handleAnimate s svc = (s, false) := by
  have hfalse : animateGuardPasses s = false := by
    cases h with
    | inl h1 => simp [animateGuardPasses, h1]
    | inr h2 => simp [animateGuardPasses, h2]
  simp [handleAnimate, hfalse]

/-- C10 witness: in the idle state, which has no composite result, an
animation request is a strict no-op. -/
theorem animate_noop_without_result_witness :
    idleState.resultUrl = none
    ∧ handleAnimate idleState (Except.ok "blob:video") = (idleState, false) :=
  ⟨rfl, animate_noop_without_result idleState (Except.ok "blob:video") (Or.inl rfl)⟩

/-- A job operation that is not yet done. -/
def notDoneOp : Op := { done := false, uri := none }

/-- A completed operation carrying a retrieval URI. -/
def doneOp : Op := { done := true, uri := some "https://storage.example/video?alt=media" }

/-- An environment whose job never reports done, no matter how often it is
polled. -/
def neverDoneEnv : VideoEnv :=
  { submit := Except.ok notDoneOp,
    poll := fun _ => Except.ok notDoneOp,
    fetchResult := Except.ok "blob:video" }

/-- The end-to-end scenario environment: the submission is not done, the
first two status queries report done=false and the third reports done=true
with a retrieval URI. -/
def threePollEnv : VideoEnv :=
  { submit := Except.ok notDoneOp,
    poll := fun k => if k < 2 then Except.ok notDoneOp else Except.ok doneOp,
    fetchResult := Except.ok "blob:video" }

/-- Against a stream that never reports done, the poll loop consumes any
amount of fuel at any starting index without producing an outcome. -/
theorem pollLoop_neverDone :
    ∀ (fuel k : Nat), pollLoop (fun _ => Except.ok notDoneOp) notDoneOp k fuel = none := by
  intro fuel
  induction fuel with
  | zero => intro k; rfl
  | succ n ih =>
    intro k
    simp only [pollLoop, notDoneOp]
    exact ih (k + 1)

/-- C1: the polling loop of generateLiveVideo has no bound.  Against a job
that never reports done, the call has produced no outcome after any number
of poll steps, so it never terminates and in particular never produces
a timeout error; against a job that reports done on the third status
query, the call performs exactly three status queries and one retrieval
fetch and returns the video URL. -/
theorem generateLiveVideo_poll_unbounded :
    (∀ fuel : Nat, generateLiveVideoRun neverDoneEnv fuel = none)
    ∧ generateLiveVideoRun threePollEnv 100 = some (Except.ok (3, 1, "blob:video")) := by
  constructor
  · intro fuel
    simp only [generateLiveVideoRun, neverDoneEnv, pollLoop_neverDone]
  · rfl

end FestiveMixer
